import Mathlib

/-!
Shallow embedding of the `digital_library` Django application
(`library_app/models.py`, `library_app/views.py`) and proofs about its
recommendation engine, numeric-input parsing and loan lifecycle.

Database rows are Lean structures, tables are lists of rows, and each view
function is translated into a pure Lean function over a `LibState`.

Modelling conventions, fixed once here:

* `DecimalField` / SQL `numeric` values are exact rationals (`ℚ`).  All
  rational arithmetic in definitions is written with `mkRat` on
  cross-multiplied numerators/denominators (`qadd`, `qsub`, `qdivNat`)
  because those kernel-reduce; bridge lemmas prove them equal to `+`, `-`,
  `/` on `ℚ`.
* Strings are compared the way PostgreSQL compares them under Django's
  `icontains` / `iexact` lookups: case-folded with `Char.toLower`,
  substring and equality tests are executable functions on `List Char`.
* `ORDER BY col DESC` in PostgreSQL places SQL `NULL` first; a nullable
  sort column `Option α` is therefore mapped into `WithTop α` with
  `none ↦ ⊤`.
* Django gives every model an implicit integer primary key `id`; a
  `ForeignKey` named `book` stores that primary key in a column whose
  attribute name is `book_id`.  `Book` additionally declares an explicit
  business field `book_id = models.IntegerField()` which is NOT the
  primary key.  Both are modelled: `Book.id : ℕ` is the surrogate key,
  `Book.book_id : ℤ` the business key, and `Loan.book_id : ℕ` is the raw
  foreign-key column (a `Book.id` value), exactly as in the schema.
-/

namespace DigitalLibrary

/-! ### Exact rational arithmetic that the kernel can evaluate -/

/-- Addition of rationals via `mkRat` (extensionally `a + b`, see `qadd_eq`). -/
def qadd (a b : ℚ) : ℚ := mkRat (a.num * b.den + b.num * a.den) (a.den * b.den)

/-- Subtraction of rationals via `mkRat` (extensionally `a - b`, see `qsub_eq`). -/
def qsub (a b : ℚ) : ℚ := mkRat (a.num * b.den - b.num * a.den) (a.den * b.den)

/-- Division of a rational by a natural number via `mkRat`
(extensionally `a / n`, see `qdivNat_eq`). -/
def qdivNat (a : ℚ) (n : ℕ) : ℚ := mkRat a.num (a.den * n)

/-- Sum of a list of rationals (extensionally `l.sum`, see `qsum_eq`). -/
def qsum (l : List ℚ) : ℚ := l.foldr qadd 0

/-! ### Python / SQL string primitives -/

/-- Case folding, as applied by PostgreSQL for `icontains` / `iexact`. -/
def lowerChars (l : List Char) : List Char := l.map Char.toLower

/-- `needle` occurs contiguously inside `hay` (SQL `LIKE '%needle%'`). -/
def isSub (needle hay : List Char) : Bool :=
  match hay with
  | [] => needle.isEmpty
  | _ :: t => needle.isPrefixOf hay || isSub needle t

/-- Django `authors__icontains=needle`: case-insensitive substring test. -/
def icontains (hay needle : String) : Bool :=
  isSub (lowerChars needle.data) (lowerChars hay.data)

/-- Django `publisher__iexact=other`: case-insensitive equality test. -/
def iexact (a b : String) : Bool :=
  lowerChars a.data = lowerChars b.data

/-- Split a character list at every occurrence of `c`
(Python `str.split(sep)` semantics: `n` separators give `n+1` pieces). -/
def splitChar (c : Char) (l : List Char) : List (List Char) :=
  match l with
  | [] => [[]]
  | x :: t =>
    let r := splitChar c t
    if x = c then [] :: r
    else
      match r with
      | [] => [[x]]
      | h :: t2 => (x :: h) :: t2

/-- Python `str.strip()`: drop whitespace from both ends. -/
def trimChars (l : List Char) : List Char :=
  ((l.dropWhile Char.isWhitespace).reverse.dropWhile Char.isWhitespace).reverse

/-- Python `'a, b'.split(',')` followed by `.strip()` on each token, as in
`[author.strip() for author in loan.book.authors.split(',')]`. -/
def splitCommaTrim (s : String) : List String :=
  (splitChar (',') s.data).map (fun t => String.mk (trimChars t))

/-! ### Data model (`models.py`) -/

/-- Row of `library_books`.  `id` is Django's implicit auto primary key;
`book_id` is the explicit `IntegerField` business key (not unique at the
storage level).  Fields that no claim touches (`isbn`, `language_code`,
`text_reviews_count`, `publication_date`, `search_vector`) are omitted. -/
structure Book where
  id : ℕ
  book_id : ℤ
  title : String
  authors : String
  publisher : Option String
  average_rating : Option ℚ
  num_pages : Option ℤ
  ratings_count : ℤ
  publication_year : Option ℤ
  is_available : Bool
deriving DecidableEq

/-- Row of `library_users` (fields the views use). -/
structure User where
  id : ℕ
  username : String
  email : String
  full_name : String
deriving DecidableEq

/-- Row of `library_loans`.  `book_id` is the raw foreign-key column, i.e.
a `Book.id` (primary key) value — NOT a `Book.book_id` business key.
`user_id` likewise stores a `User.id`.  Dates are abstract instants `ℕ`. -/
structure Loan where
  id : ℕ
  user_id : ℕ
  book_id : ℕ
  borrowed_date : ℕ
  due_date : Option ℕ
  returned_date : Option ℕ
  is_returned : Bool
  user_rating : Option ℚ
deriving DecidableEq

/-- The database state the views read and write. -/
structure LibState where
  books : List Book
  users : List User
  loans : List Loan
deriving DecidableEq

/-! ### ORDER BY machinery

A queryset ordered by a chain of `-col` keys is modelled by mapping each
row into a lexicographic product of linear orders and insertion-sorting by
descending key.  PostgreSQL sorts with arbitrary tie order; insertion sort
realises one valid such order, and every theorem below depends only on
properties shared by all valid orders. -/

/-- `a` may precede `b` in a descending-key ordering. -/
def byKeyDesc {α K : Type} [LinearOrder K] (k : α → K) (a b : α) : Prop := k b ≤ k a

instance {α K : Type} [LinearOrder K] (k : α → K) : DecidableRel (byKeyDesc k) :=
  fun a b => inferInstanceAs (Decidable (k b ≤ k a))

instance {α K : Type} [LinearOrder K] (k : α → K) : IsTotal α (byKeyDesc k) :=
  ⟨fun a b => (le_total (k b) (k a)).imp id id⟩

instance {α K : Type} [LinearOrder K] (k : α → K) : IsTrans α (byKeyDesc k) :=
  ⟨fun _ _ _ hab hbc => le_trans hbc hab⟩

/-- Sort a list so that keys are non-increasing (SQL `ORDER BY k DESC`). -/
def sortByKeyDesc {α K : Type} [LinearOrder K] (k : α → K) (l : List α) : List α :=
  l.insertionSort (byKeyDesc k)

/-- Sort key for a nullable rating column under `ORDER BY average_rating DESC`
(PostgreSQL places `NULL` first in descending order, hence `none ↦ ⊤`). -/
def ratingKey (r : Option ℚ) : WithTop ℚ :=
  match r with
  | none => ⊤
  | some q => (q : WithTop ℚ)

/-- Sort key for a nullable integer column under descending order. -/
def intKey (y : Option ℤ) : WithTop ℤ :=
  match y with
  | none => ⊤
  | some n => (n : WithTop ℤ)

/-! ### Recommendation engine (`views.user_recommendations`) -/

/-- `get_object_or_404(User, username=username)`: `username` is declared
`unique=True`, so lookup returns the first (only) matching row. -/
def getUser (st : LibState) (username : String) : Option User :=
  st.users.find? (fun u => u.username = username)

/-- `Loan.objects.filter(user=user)`: every loan of the user, active and
returned.  (The model's default `-borrowed_date` ordering only affects
iteration order, which no downstream computation observes.) -/
def userLoans (st : LibState) (u : User) : List Loan :=
  st.loans.filter (fun l => l.user_id = u.id)

/-- `select_related('book')`: resolve a loan's foreign key to its book row. -/
def loanBook (st : LibState) (l : Loan) : Option Book :=
  st.books.find? (fun b => b.id = l.book_id)

/-- The books joined to the user's loans, one entry per loan
(inner-join semantics: a dangling foreign key contributes nothing). -/
def loanedBooks (st : LibState) (u : User) : List Book :=
  (userLoans st u).filterMap (loanBook st)

/-- `read_book_ids = list(user_loans.values_list('book_id', flat=True))`.
`book_id` here resolves to the foreign-key column of `Loan`, so the list
holds `Book.id` primary keys. -/
def read_book_ids (st : LibState) (u : User) : List ℕ :=
  (userLoans st u).map (fun l => l.book_id)

/-- `read_authors`: for each loan whose book has a truthy `authors` string,
split on `,` and strip each token; collect into a set (modelled as a
deduplicated list). -/
def read_authors (st : LibState) (u : User) : List String :=
  (((loanedBooks st u).map
      (fun b => if b.authors = "" then [] else splitCommaTrim b.authors)).flatten).dedup

/-- `read_publishers`: distinct, non-null, non-empty publishers of the
loaned books. -/
def read_publishers (st : LibState) (u : User) : List String :=
  (((loanedBooks st u).filterMap (fun b => b.publisher)).filter (fun p => p ≠ "")).dedup

/-- SQL `AVG` over a joined nullable column: `NULL` entries are ignored and
the aggregate itself is `NULL` when no non-null value exists. -/
def sqlAvg (l : List ℚ) : Option ℚ :=
  if l = [] then none else some (qdivNat (qsum l) l.length)

/-- The non-null `average_rating` values over the user's loans (one entry
per loan, as the SQL join produces). -/
def definedBookRatings (st : LibState) (u : User) : List ℚ :=
  (loanedBooks st u).filterMap (fun b => b.average_rating)

/-- Python `x or y` on a `Decimal`-or-`None` left operand: `None` and the
zero `Decimal` are both falsy, so either yields the default `y`. -/
def pyOrDecimal (x : Option ℚ) (y : ℚ) : ℚ :=
  match x with
  | none => y
  | some q => if q = 0 then y else q

/-- `avg_rating = user_loans.aggregate(avg=Avg('book__average_rating'))['avg']
or Decimal('3.5')`. -/
def avg_rating (st : LibState) (u : User) : ℚ :=
  pyOrDecimal (sqlAvg (definedBookRatings st u)) (mkRat 7 2)

/-- The derived taste profile of §4.1: exclusion list, known authors,
known publishers, average enjoyed rating. -/
structure TasteProfile where
  read_book_ids : List ℕ
  read_authors : List String
  read_publishers : List String
  avg_rating : ℚ
deriving DecidableEq

/-- Profile extraction, as inlined in `user_recommendations`. -/
def taste_profile (st : LibState) (u : User) : TasteProfile :=
  ⟨read_book_ids st u, read_authors st u, read_publishers st u, avg_rating st u⟩

/-- `author_conditions`: the Q object built by OR-ing
`Q(authors__icontains=a)` over the known authors.  This function is the
row predicate that tree denotes when `read_authors` is nonempty.  When
`read_authors` is empty the accumulated tree is Django's empty `Q()` —
the identity element of `&`/`|`, not a predicate — and using it as a
`When` condition makes the view raise before any query runs; that error
path is modelled by `caseConstructionFails` below, which guards every use
of this function in `user_recommendations`. -/
def author_conditions (p : TasteProfile) (b : Book) : Bool :=
  p.read_authors.any (fun a => icontains b.authors a)

/-- `publisher_conditions`: the Q object built by OR-ing
`Q(publisher__iexact=q)` over the known publishers (a `NULL` publisher
matches no `iexact` lookup).  As with `author_conditions`, this is the
denoted predicate of a nonempty tree; an empty `read_publishers` leaves
the empty `Q()`, whose use in `When(..., then=Value(2))` raises — see
`caseConstructionFails`. -/
def publisher_conditions (p : TasteProfile) (b : Book) : Bool :=
  p.read_publishers.any (fun q =>
    match b.publisher with
    | some pub => iexact pub q
    | none => false)

/-- The tier-1 rating window:
`Q(average_rating__gte=avg_rating - Decimal('0.5')) &
 Q(average_rating__lte=avg_rating + Decimal('0.5'))`;
a `NULL` rating fails both comparisons. -/
def rating_condition (p : TasteProfile) (b : Book) : Bool :=
  match b.average_rating with
  | some r => decide (qsub p.avg_rating (mkRat 1 2) ≤ r) && decide (r ≤ qadd p.avg_rating (mkRat 1 2))
  | none => false

/-- SQL `CASE WHEN c1 THEN v1 WHEN c2 THEN v2 ... ELSE d END`:
the first true condition wins. -/
def caseWhen (branches : List (Bool × ℤ)) (dflt : ℤ) : ℤ :=
  match branches with
  | [] => dflt
  | (c, v) :: rest => if c then v else caseWhen rest dflt

/-- Whether constructing
`Case(When(author & publisher, 4), When(author, 3), When(publisher, 2),
When(rating-window, 1))` raises.  Each `When(...)` is built eagerly as an
argument of `Case(...)`; Django's empty `Q()` is the identity of `&`/`|`
(so `author & Q()` collapses to `author` and an empty–nonempty
conjunction never reaches `When` empty), and a `When` whose condition is
the empty `Q()` is rejected at construction.  The author condition of
`When(..., then=Value(3))` is empty exactly when `read_authors = []`, the
publisher condition of `When(..., then=Value(2))` exactly when
`read_publishers = []`, and the rating window is never empty — so the
annotation, and with it the whole personalized branch, raises exactly
when either set is empty, before any row is scored. -/
def caseConstructionFails (p : TasteProfile) : Bool :=
  p.read_authors = [] || p.read_publishers = []

/-- The `priority_score` annotation: tiers 4/3/2/1 with default 0,
evaluated as a `Case` expression in the order written in the source.
Meaningful only when `caseConstructionFails p = false`, i.e. when every
`When` condition is a nonempty tree; `user_recommendations` computes it
only there. -/
def priority_score (p : TasteProfile) (b : Book) : ℤ :=
  caseWhen
    [(author_conditions p b && publisher_conditions p b, 4),
     (author_conditions p b, 3),
     (publisher_conditions p b, 2),
     (rating_condition p b, 1)]
    0

/-- The `popularity=Count('loans')` annotation: number of loan rows whose
foreign key references this book row. -/
def popularity (st : LibState) (b : Book) : ℕ :=
  st.loans.countP (fun l => l.book_id = b.id)

/-- Eligible candidates: `Book.objects.filter(is_available=True)
.exclude(book_id__in=read_book_ids)`.  The exclusion compares the
business key `Book.book_id` against the collected foreign-key values. -/
def candidateBooks (st : LibState) (p : TasteProfile) : List Book :=
  st.books.filter (fun b =>
    b.is_available && !(p.read_book_ids.any (fun fk => (fk : ℤ) = b.book_id)))

/-- The four-part descending sort key of the main queryset:
`('-priority_score', '-average_rating', '-popularity', '-publication_year')`. -/
def recKey (st : LibState) (p : TasteProfile) (b : Book) :
    ℤ ×ₗ (WithTop ℚ ×ₗ (ℕ ×ₗ WithTop ℤ)) :=
  toLex (priority_score p b,
    toLex (ratingKey b.average_rating,
      toLex (popularity st b, intKey b.publication_year)))

/-- The fully sorted candidate queryset `recommendations`. -/
def recommendationsSorted (st : LibState) (p : TasteProfile) : List Book :=
  sortByKeyDesc (recKey st p) (candidateBooks st p)

/-- `priority_count = recommendations.filter(priority_score__gte=2).count()`. -/
def priority_count (st : LibState) (p : TasteProfile) : ℕ :=
  (recommendationsSorted st p).countP (fun b => 2 ≤ priority_score p b)

/-- `top_recommendations = list(recommendations[:30])`. -/
def top_recommendations (st : LibState) (p : TasteProfile) : List Book :=
  (recommendationsSorted st p).take 30

/-- `priority_recs = list(recommendations.filter(priority_score__gte=2)[:15])`. -/
def priority_recs (st : LibState) (p : TasteProfile) : List Book :=
  ((recommendationsSorted st p).filter (fun b => 2 ≤ priority_score p b)).take 15

/-- Descending sort key of the supplemental query:
`('-ratings_count', '-average_rating')`. -/
def popKey (b : Book) : ℤ ×ₗ WithTop ℚ :=
  toLex (b.ratings_count, ratingKey b.average_rating)

/-- `popular_books`: available books rated at least 4.0, excluding
`all_excluded = read_book_ids + priority_ids` (the loans' foreign-key
values concatenated with the business ids of `priority_recs`), ordered by
`('-ratings_count', '-average_rating')`, first 15. -/
def popular_books (st : LibState) (p : TasteProfile) : List Book :=
  let priority_ids := (priority_recs st p).map (fun b => b.book_id)
  (sortByKeyDesc popKey
    (st.books.filter (fun b =>
      b.is_available &&
      (match b.average_rating with
       | some r => decide ((4 : ℚ) ≤ r)
       | none => false) &&
      !(p.read_book_ids.any (fun fk => (fk : ℤ) = b.book_id)) &&
      !(priority_ids.contains b.book_id)))).take 15

/-- `final_recommendations`: Branch B (`priority_count < 10`) concatenates
`priority_recs` with `popular_books`; Branch A returns the top 30. -/
def final_recommendations (st : LibState) (p : TasteProfile) : List Book :=
  if priority_count st p < 10 then priority_recs st p ++ popular_books st p
  else top_recommendations st p

/-- Cold-start key: `('-average_rating', '-ratings_count')`. -/
def coldKey (b : Book) : WithTop ℚ ×ₗ ℤ :=
  toLex (ratingKey b.average_rating, b.ratings_count)

/-- Cold-start query: available books, best rated first, top 20. -/
def cold_start_books (st : LibState) : List Book :=
  (sortByKeyDesc coldKey (st.books.filter (fun b => b.is_available))).take 20

/-- Which template branch a recommendation response came from
(`user_loans_exist` flag of the rendered context). -/
inductive RecMode where
  | coldStart
  | personalized
deriving DecidableEq

/-- The data of a successful recommendation response. -/
structure RecResult where
  mode : RecMode
  books : List Book
deriving DecidableEq

/-- The failure modes of the view: `notFound` from
`get_object_or_404(User, ...)`, and `emptyWhenCondition` when the
`Case`/`When` annotation is built with an empty `Q()` condition (no known
authors or no known publishers), which Django rejects before running the
query — the request then fails with an unhandled exception. -/
inductive RecError where
  | notFound
  | emptyWhenCondition
deriving DecidableEq

instance {ε α : Type} [DecidableEq ε] [DecidableEq α] : DecidableEq (Except ε α) :=
  fun a b =>
    match a, b with
    | .ok x, .ok y =>
      if h : x = y then .isTrue (by rw [h]) else .isFalse (by intro hc; cases hc; exact h rfl)
    | .ok _, .error _ => .isFalse (by intro hc; cases hc)
    | .error _, .ok _ => .isFalse (by intro hc; cases hc)
    | .error x, .error y =>
      if h : x = y then .isTrue (by rw [h]) else .isFalse (by intro hc; cases hc; exact h rfl)

/-- `user_recommendations(request, username)`: 404 for an unknown
username; cold-start list for a user without loans; otherwise profile
extraction followed by the `Case`-annotated queryset — which raises when
a `When` condition is the empty `Q()` — and then scoring, sorting and
fallback blending. -/
def user_recommendations (st : LibState) (username : String) :
    Except RecError RecResult :=
  match getUser st username with
  | none => .error .notFound
  | some u =>
    if userLoans st u = [] then .ok ⟨.coldStart, cold_start_books st⟩
    else
      if caseConstructionFails (taste_profile st u) then .error .emptyWhenCondition
      else .ok ⟨.personalized, final_recommendations st (taste_profile st u)⟩

/-! ### Numeric parsing of external inputs (`home`, `user_dashboard`)

Python exception classes that matter here.  `decimal.Decimal(str)` raises
`decimal.InvalidOperation` on malformed input — a subclass of
`ArithmeticError`, NOT of `ValueError` — while `float(str)` raises
`ValueError`.  The `except (ValueError, TypeError)` clauses in the source
therefore catch the latter but not the former. -/

/-- The Python exceptions relevant to the numeric-parsing sites. -/
inductive PyExc where
  | invalidOperation
  | valueError
  | typeError
deriving DecidableEq

/-- Exceptions named by the `except (ValueError, TypeError)` clauses. -/
def caughtByValueTypeClause (e : PyExc) : Bool :=
  e = .valueError || e = .typeError

/-- Digits of a numeral, most significant first. -/
def digitsToNat (l : List Char) : ℕ :=
  l.foldl (fun n c => 10 * n + (c.toNat - 48)) 0

/-- The exact value a decimal numeral string denotes, if well formed.
Models the accepted forms `[+-] digits [. digits]` (surrounding
whitespace allowed); scientific notation and the `Infinity`/`NaN` forms
of `decimal.Decimal` are out of scope for the inputs considered here. -/
def parseDecimalString (s : String) : Option ℚ :=
  let cs := trimChars s.data
  let signed : ℤ × List Char :=
    match cs with
    | '+' :: t => (1, t)
    | '-' :: t => (-1, t)
    | _ => (1, cs)
  match splitChar ('.') signed.2 with
  | [ip] =>
    if ip ≠ [] ∧ ip.all Char.isDigit then
      some (mkRat (signed.1 * digitsToNat ip) 1)
    else none
  | [ip, fp] =>
    if (ip ≠ [] ∨ fp ≠ []) ∧ ip.all Char.isDigit ∧ fp.all Char.isDigit then
      some (mkRat (signed.1 * (digitsToNat ip * 10 ^ fp.length + digitsToNat fp)) (10 ^ fp.length))
    else none
  | _ => none

/-- `Decimal(s)`: the value, or an `InvalidOperation` exception. -/
def pyDecimal (s : String) : Except PyExc ℚ :=
  match parseDecimalString s with
  | some q => .ok q
  | none => .error .invalidOperation

/-- `float(s)`: the value, or a `ValueError` exception.  (The binary
rounding of Python floats is not modelled; no verified claim branches on
a parsed float's value.) -/
def pyFloat (s : String) : Except PyExc ℚ :=
  match parseDecimalString s with
  | some q => .ok q
  | none => .error .valueError

/-- The `min_rating` block of `home`: `try: ... Decimal(min_rating) ...
except (ValueError, TypeError): pass`.  An exception the clause does not
name propagates out of the view. -/
def homeMinRatingFilter (books : List Book) (min_rating : String) :
    Except PyExc (List Book) :=
  if min_rating = "" then .ok books
  else
    match pyDecimal min_rating with
    | .ok d =>
      .ok (books.filter (fun b =>
        match b.average_rating with
        | some r => decide (d ≤ r)
        | none => false))
    | .error e => if caughtByValueTypeClause e then .ok books else .error e

/-- `home` without its full-text-search branch (the text-relevance oracle
is an external collaborator): publisher, minimum-rating, availability and
page-count filters, then the featured-or-capped listing. -/
def home (st : LibState)
    (selected_publisher min_rating availability pages : String) :
    Except PyExc (List Book) :=
  let filters_active :=
    selected_publisher ≠ "" ∨ min_rating ≠ "" ∨ availability ≠ "" ∨ pages ≠ ""
  let books0 := st.books
  let books1 :=
    if selected_publisher = "" then books0
    else books0.filter (fun b =>
      match b.publisher with
      | some p => iexact p selected_publisher
      | none => false)
  match homeMinRatingFilter books1 min_rating with
  | .error e => .error e
  | .ok books2 =>
    let books3 :=
      if availability = "available" then books2.filter (fun b => b.is_available)
      else if availability = "borrowed" then books2.filter (fun b => !b.is_available)
      else books2
    let books4 :=
      if pages = "short" then
        books3.filter (fun b =>
          match b.num_pages with
          | some n => decide (n < 200)
          | none => false)
      else if pages = "medium" then
        books3.filter (fun b =>
          match b.num_pages with
          | some n => decide (200 ≤ n ∧ n ≤ 400)
          | none => false)
      else if pages = "long" then
        books3.filter (fun b =>
          match b.num_pages with
          | some n => decide (400 < n)
          | none => false)
      else books3
    if ¬ filters_active then
      .ok ((sortByKeyDesc (fun b => ratingKey b.average_rating)
        (books4.filter (fun b => b.is_available))).take 20)
    else .ok (books4.take 50)

/-- The reading-history part of `user_dashboard`: returned loans ordered
by `-returned_date`, then the optional `rating_filter` block
(`try: Decimal(rating_filter) ... except (ValueError, TypeError): pass`). -/
def userDashboardReadingHistory (st : LibState) (u : User)
    (rating_filter : String) : Except PyExc (List Loan) :=
  let history := sortByKeyDesc (fun l => intKey (l.returned_date.map Int.ofNat))
    (st.loans.filter (fun l => l.user_id = u.id && l.is_returned))
  if rating_filter = "" then .ok history
  else
    match pyDecimal rating_filter with
    | .ok d =>
      .ok (history.filter (fun l =>
        match l.user_rating with
        | some r => decide (d ≤ r)
        | none => false))
    | .error e => if caughtByValueTypeClause e then .ok history else .error e

/-! ### Loan lifecycle (`borrow_book`, `return_book`) -/

/-- `get_object_or_404(Book, book_id=book_id)`: succeeds only when
exactly one row carries the business key (`.get()` raises `Http404` on
zero matches and `MultipleObjectsReturned` on several; either way the
view performs no write). -/
def uniqueBookByBusinessId (st : LibState) (bid : ℤ) : Option Book :=
  match st.books.filter (fun b => b.book_id = bid) with
  | [b] => some b
  | _ => none

/-- The next auto-increment value for the `library_users` table. -/
def nextUserId (st : LibState) : ℕ :=
  (st.users.map (fun u => u.id)).foldr max 0 + 1

/-- The next auto-increment value for the `library_loans` table. -/
def nextLoanId (st : LibState) : ℕ :=
  (st.loans.map (fun l => l.id)).foldr max 0 + 1

/-- The row `User.objects.get_or_create` inserts when no user with the
given (already stripped) username exists, with the `defaults` of the
source: `email = f'{username}@example.com'`, `full_name = username`. -/
def createdUser (st : LibState) (username : String) : User :=
  ⟨nextUserId st, username, username ++ "@example.com", username⟩

/-- `User.objects.get_or_create(username=username, defaults=...)`. -/
def getOrCreateUser (st : LibState) (username : String) : LibState × User :=
  match st.users.find? (fun u => u.username = username) with
  | some u => (st, u)
  | none =>
    let u := createdUser st username
    ({st with users := st.users ++ [u]}, u)

/-- Observable outcome of a `borrow_book` POST. -/
inductive BorrowOutcome where
  | redirectedHome
  | renderedUnavailable
  | invalidUsername
  | lookupFailed
deriving DecidableEq

/-- The loan row `Loan.objects.create(user=user, book=book,
due_date=timezone.now() + timedelta(days=14))` inserts. -/
def createdLoan (st : LibState) (u : User) (b : Book) (now : ℕ) : Loan :=
  ⟨nextLoanId st, u.id, b.id, now, some (now + 14), none, false, none⟩

/-- `borrow_book` on a POST request at instant `now`: check availability,
strip the submitted username, get-or-create the user, insert a loan and
mark the book row unavailable. -/
def borrow_book (st : LibState) (bid : ℤ) (username_raw : String) (now : ℕ) :
    LibState × BorrowOutcome :=
  match uniqueBookByBusinessId st bid with
  | none => (st, .lookupFailed)
  | some b =>
    if b.is_available then
      let username := String.mk (trimChars username_raw.data)
      if username = "" then (st, .invalidUsername)
      else
        let su := getOrCreateUser st username
        let st2 : LibState :=
          { su.1 with
            loans := su.1.loans ++ [createdLoan su.1 su.2 b now],
            books := su.1.books.map (fun x =>
              if x.id = b.id then {x with is_available := false} else x) }
        (st2, .redirectedHome)
    else (st, .renderedUnavailable)

/-- Observable outcome of a `return_book` POST. -/
inductive ReturnOutcome where
  | redirectedDashboard
  | redirectedHomeNoLoan
  | lookupFailed
deriving DecidableEq

/-- `Loan.objects.filter(book=book, is_returned=False).first()`: the open
loan with the most recent `borrowed_date` (the model's default
`-borrowed_date` ordering). -/
def firstOpenLoan (st : LibState) (b : Book) : Option Loan :=
  (sortByKeyDesc (fun l => l.borrowed_date)
    (st.loans.filter (fun l => l.book_id = b.id && !l.is_returned))).head?

/-- `return_book` on a POST request at instant `now`: find the active
loan, record the optional user rating (`float(rating)` failures are
caught and ignored), mark the loan returned and the book available. -/
def return_book (st : LibState) (bid : ℤ) (rating : String) (now : ℕ) :
    LibState × ReturnOutcome :=
  match uniqueBookByBusinessId st bid with
  | none => (st, .lookupFailed)
  | some b =>
    match firstOpenLoan st b with
    | none => (st, .redirectedHomeNoLoan)
    | some l =>
      let newRating :=
        if rating = "" then l.user_rating
        else
          match pyFloat rating with
          | .ok q => some q
          | .error _ => l.user_rating
      let st2 : LibState :=
        { st with
          loans := st.loans.map (fun x =>
            if x.id = l.id then
              {x with user_rating := newRating, is_returned := true,
                      returned_date := some now}
            else x),
          books := st.books.map (fun x =>
            if x.id = b.id then {x with is_available := true} else x) }
      (st2, .redirectedDashboard)

/-! ### State invariants for the loan lifecycle -/

/-- Number of open (not yet returned) loan rows referencing book row `pk`. -/
def openLoanCount (st : LibState) (pk : ℕ) : ℕ :=
  st.loans.countP (fun l => !l.is_returned && l.book_id = pk)

/-- The availability predicate exactly as the spec states it: a book has
`is_available == false` if and only if exactly one open loan references it. -/
def availabilityLoanInv (st : LibState) : Prop :=
  ∀ b ∈ st.books, (b.is_available = false ↔ openLoanCount st b.id = 1)

instance (st : LibState) : Decidable (availabilityLoanInv st) := by
  unfold availabilityLoanInv
  infer_instance

/-- Strengthened, inductive availability invariant: loan primary keys are
unique (as the database enforces) and every book's open-loan count is
exactly 0 when it is available and exactly 1 when it is not.  This rules
out the states with several open loans on one book that the plain
biconditional `availabilityLoanInv` still admits. -/
def strongAvailabilityInv (st : LibState) : Prop :=
  (st.loans.map (fun l => l.id)).Nodup ∧
  ∀ b ∈ st.books, openLoanCount st b.id = (if b.is_available then 0 else 1)

instance (st : LibState) : Decidable (strongAvailabilityInv st) := by
  unfold strongAvailabilityInv
  infer_instance

/-! ### Predicates in the spec's vocabulary (§4.2)

Stated with ordinary list/rational operations so the claim theorems can
compare the executable scorer against the spec's wording. -/

/-- Spec `authorMatch`: some token of `knownAuthors` is a case-insensitive
substring (contiguous part) of the book's `authors` field. -/
def authorMatchSpec (p : TasteProfile) (b : Book) : Prop :=
  ∃ a ∈ p.read_authors, ∃ pre post,
    lowerChars b.authors.data = pre ++ lowerChars a.data ++ post

/-- Spec `publisherMatch`: the book's publisher is non-null and
case-insensitively exactly equals some entry of `knownPublishers`. -/
def publisherMatchSpec (p : TasteProfile) (b : Book) : Prop :=
  ∃ q ∈ p.read_publishers, ∃ pub,
    b.publisher = some pub ∧ lowerChars pub.data = lowerChars q.data

/-- Spec `ratingMatch`: the book's `average_rating` is defined and lies
within `[averageEnjoyedRating - 0.5, averageEnjoyedRating + 0.5]`. -/
def ratingMatchSpec (p : TasteProfile) (b : Book) : Prop :=
  ∃ r, b.average_rating = some r ∧
    p.avg_rating - 1 / 2 ≤ r ∧ r ≤ p.avg_rating + 1 / 2

/-- Modelled from the spec: "`readBookIds` = set of all `book_id` across
the user's loans (active + returned) — excludes **all** previously
borrowed books from future recommendations."  The business `book_id` of
each loaned book.  The source computes no such set — its exclusion list
`read_book_ids` holds the loans' raw foreign-key values (book row primary
keys) — so the spec's wording is rendered here for comparison. -/
def spec_readBookIds (st : LibState) (u : User) : List ℤ :=
  (loanedBooks st u).map (fun b => b.book_id)

/-! ### Concrete database states used by the claim theorems -/

/-- C1 example: book the user has read — authored "Jane Doe", publisher "Acme". -/
def readBookC1 : Book := ⟨1, 1, "T0", "Jane Doe", some "Acme", none, none, 0, none, false⟩

/-- C1 example: candidate authored "Jane Doe, John Smith", publisher "Acme". -/
def candBothC1 : Book := ⟨2, 2, "TA", "Jane Doe, John Smith", some "Acme", none, none, 0, none, true⟩

/-- C1 example: candidate authored "Jane Doe", publisher "Other Press". -/
def candAuthorC1 : Book := ⟨3, 3, "TB", "Jane Doe", some "Other Press", none, none, 0, none, true⟩

/-- C1 example: candidate authored "Unknown Author", publisher "Acme". -/
def candPubC1 : Book := ⟨4, 4, "TC", "Unknown Author", some "Acme", none, none, 0, none, true⟩

/-- C1 example: the user. -/
def userC1 : User := ⟨1, "ana", "a@example.com", "Ana"⟩

/-- C1 example: the single loan, on `readBookC1`. -/
def loanC1 : Loan := ⟨1, 1, 1, 0, none, none, false, none⟩

/-- C1 example: the database state. -/
def stateC1 : LibState := ⟨[readBookC1, candBothC1, candAuthorC1, candPubC1], [userC1], [loanC1]⟩

/-- C1 example: profile built from the one loan. -/
def profileC1 : TasteProfile := taste_profile stateC1 userC1

/-- C5 failing input: one available book whose surrogate key is 1 but
whose business `book_id` is 2; the user has borrowed and returned it. -/
def bookC5 : Book := ⟨1, 2, "T", "Jane Doe", some "Acme", none, none, 0, none, true⟩

/-- C5 failing input: the user. -/
def userC5 : User := ⟨1, "ana", "a@example.com", "Ana"⟩

/-- C5 failing input: the returned loan on `bookC5` (foreign key 1). -/
def loanC5 : Loan := ⟨1, 1, 1, 0, none, none, true, none⟩

/-- C5 failing input: the database state. -/
def stateC5 : LibState := ⟨[bookC5], [userC5], [loanC5]⟩

/-- C6 counterexample: a loaned book whose catalog rating is exactly 0. -/
def bookC6 : Book := ⟨1, 1, "T", "A", none, some 0, none, 0, none, false⟩

/-- C6 counterexample: the user. -/
def userC6 : User := ⟨1, "bob", "b@example.com", "Bob"⟩

/-- C6 counterexample: the database state (one active loan on `bookC6`). -/
def stateC6 : LibState := ⟨[bookC6], [userC6], [⟨1, 1, 1, 0, none, none, false, none⟩]⟩

/-- C6 witness state: a loaned book rated 4, giving a nonzero mean. -/
def bookC6w : Book := ⟨1, 1, "T", "A", none, some 4, none, 0, none, false⟩

/-- C6 witness state: the database state. -/
def stateC6w : LibState := ⟨[bookC6w], [userC6], [⟨1, 1, 1, 0, none, none, false, none⟩]⟩

/-- C7 state: one available book rated 4.5 in an otherwise tiny catalog. -/
def bookC7 : Book := ⟨1, 1, "T", "A", none, some (mkRat 9 2), none, 3, none, true⟩

/-- C7 state: the user whose dashboard is filtered. -/
def userC7 : User := ⟨1, "cara", "c@example.com", "Cara"⟩

/-- C7 state: the database state. -/
def stateC7 : LibState := ⟨[bookC7], [userC7], []⟩

/-- C8/C4 witness state: a user with no loans and a two-book catalog. -/
def userC8 : User := ⟨1, "dan", "d@example.com", "Dan"⟩

/-- C8/C4 witness state: the database state. -/
def stateC8 : LibState :=
  ⟨[⟨1, 1, "T1", "A", none, some 4, none, 5, none, true⟩,
    ⟨2, 2, "T2", "B", none, some 3, none, 9, none, true⟩],
   [userC8], []⟩

/-- C9 counterexample: a book marked available while two open loans
reference it — the plain biconditional tolerates this state. -/
def bookC9 : Book := ⟨1, 1, "T", "A", none, none, none, 0, none, true⟩

/-- C9 counterexample: the database state with two open loans on `bookC9`. -/
def stateC9 : LibState :=
  ⟨[bookC9], [⟨1, "eva", "e@example.com", "Eva"⟩],
   [⟨1, 1, 1, 0, none, none, false, none⟩, ⟨2, 1, 1, 1, none, none, false, none⟩]⟩

/-- C9/C10 witness state: one available book, no users, no loans. -/
def bookC10 : Book := ⟨1, 7, "T", "A", none, none, none, 0, none, true⟩

/-- C9/C10 witness state: the database state. -/
def stateC10 : LibState := ⟨[bookC10], [], []⟩

/-- C3 witness: the book the user currently has on loan. -/
def readBookC3 : Book := ⟨100, 100, "T0", "Zq", some "P", none, none, 0, none, false⟩

/-- C3 witness: ten identical-looking available candidates sharing the
read book's publisher, hence ten tier-2 candidates. -/
def candC3 (i : ℕ) : Book := ⟨i, (i : ℤ), "T", "b", some "P", none, none, 0, none, true⟩

/-- C3 witness: the user. -/
def userC3 : User := ⟨1, "walt", "w@example.com", "Walt"⟩

/-- C3 witness: the database state (priority count 10). -/
def stateC3 : LibState :=
  ⟨readBookC3 :: (List.range 10).map (fun i => candC3 (i + 1)), [userC3],
   [⟨1, 1, 100, 0, none, none, false, none⟩]⟩

/-- C1 counterexample: the book the user has on loan — authored
"Jane Doe" but with a `NULL` publisher, so the profile's known-publisher
set is empty. -/
def bookC1cx : Book := ⟨1, 1, "T", "Jane Doe", none, none, none, 0, none, false⟩

/-- C1 counterexample: an available candidate the tier-3 rule would match. -/
def candC1cx : Book := ⟨2, 2, "T2", "Jane Doe", some "Acme", none, none, 0, none, true⟩

/-- C1 counterexample: the user. -/
def userC1cx : User := ⟨1, "cruz", "cr@example.com", "Cruz"⟩

/-- C1 counterexample: the database state (one active loan on `bookC1cx`). -/
def stateC1cx : LibState :=
  ⟨[bookC1cx, candC1cx], [userC1cx], [⟨1, 1, 1, 0, none, none, false, none⟩]⟩

/-- C2 counterexample: a previously borrowed and returned book — blank
`authors`, `NULL` publisher, rating 4.5, surrogate pk 1 but business
`book_id` 2. -/
def readBookC2cx : Book := ⟨1, 2, "T0", "", none, some (mkRat 9 2), none, 6, none, true⟩

/-- C2 counterexample: the currently loaned book supplying the profile's
author and publisher (keeping the `Case` construction alive). -/
def profBookC2cx : Book := ⟨3, 3, "T1", "Zq", some "P", none, none, 0, none, false⟩

/-- C2 counterexample: the lone tier-2 candidate. -/
def candC2cx : Book := ⟨10, 10, "T2", "b", some "P", none, none, 0, none, true⟩

/-- C2 counterexample: the user. -/
def userC2cx : User := ⟨1, "gil", "g@example.com", "Gil"⟩

/-- C2 counterexample: the database state — a returned loan on
`readBookC2cx` and an active loan on `profBookC2cx`. -/
def stateC2cx : LibState :=
  ⟨[readBookC2cx, profBookC2cx, candC2cx], [userC2cx],
   [⟨1, 1, 1, 0, none, none, true, none⟩, ⟨2, 1, 3, 1, none, none, false, none⟩]⟩

/-- C3 counterexample: a previously borrowed and returned book with
surrogate pk 1 but business `book_id` 2; its own author and publisher
make it a tier-4 candidate for its own reader. -/
def readBookC3cx : Book := ⟨1, 2, "T0", "Jane Doe", some "Acme", none, none, 0, none, true⟩

/-- C3 counterexample: nine available tier-2 candidates sharing the read
book's publisher. -/
def candC3cx (i : ℕ) : Book := ⟨i, (i : ℤ), "T", "b", some "Acme", none, none, 0, none, true⟩

/-- C3 counterexample: the user. -/
def userC3cx : User := ⟨1, "hal", "h@example.com", "Hal"⟩

/-- C3 counterexample: the database state (priority count 10, Branch A). -/
def stateC3cx : LibState :=
  ⟨readBookC3cx :: (List.range 9).map (fun i => candC3cx (i + 11)), [userC3cx],
   [⟨1, 1, 1, 0, none, none, true, none⟩]⟩

/-- C2 witness: one tier-2 candidate. -/
def prioBookC2 : Book := ⟨1, 1, "T1", "b", some "P", none, none, 0, none, true⟩

/-- C2 witness: one highly rated unrelated book for the supplemental query. -/
def popBookC2 : Book := ⟨2, 2, "T2", "c", some "Q", some (mkRat 9 2), none, 7, none, true⟩

/-- C2 witness: the database state (priority count 1). -/
def stateC2 : LibState :=
  ⟨[readBookC3, prioBookC2, popBookC2], [userC3],
   [⟨1, 1, 100, 0, none, none, false, none⟩]⟩

/-! ## Theorems

Everything from here on is a lemma or a claim theorem; no further
definitions are introduced below except inside proofs. -/

theorem num_eq_mul_den (a : ℚ) : (a.num : ℚ) = a * (a.den : ℚ) := by
  have hden : ((a.den : ℚ)) ≠ 0 := by exact_mod_cast a.den_ne_zero
  have ha := Rat.num_div_den a
  rw [div_eq_iff hden] at ha
  exact ha

theorem qadd_eq (a b : ℚ) : qadd a b = a + b := by
  rw [qadd, Rat.mkRat_eq_div]
  push_cast
  field_simp
  rw [num_eq_mul_den a, num_eq_mul_den b]
  ring

theorem qsub_eq (a b : ℚ) : qsub a b = a - b := by
  rw [qsub, Rat.mkRat_eq_div]
  push_cast
  field_simp
  rw [num_eq_mul_den a, num_eq_mul_den b]
  ring

theorem qdivNat_eq (a : ℚ) (n : ℕ) : qdivNat a n = a / n := by
  rw [qdivNat, Rat.mkRat_eq_div]
  push_cast
  rw [div_mul_eq_div_div]
  congr 1
  rw [num_eq_mul_den a]
  field_simp

theorem qsum_eq (l : List ℚ) : qsum l = l.sum := by
  induction l with
  | nil => rfl
  | cons a t ih => rw [qsum, List.foldr_cons, ← qsum, ih, qadd_eq, List.sum_cons]

theorem sortByKeyDesc_sorted {α K : Type} [LinearOrder K] (k : α → K) (l : List α) :
    List.Sorted (byKeyDesc k) (sortByKeyDesc k l) :=
  List.sorted_insertionSort (byKeyDesc k) l

theorem sortByKeyDesc_perm {α K : Type} [LinearOrder K] (k : α → K) (l : List α) :
    (sortByKeyDesc k l).Perm l :=
  List.perm_insertionSort (byKeyDesc k) l

theorem mem_sortByKeyDesc {α K : Type} [LinearOrder K] (k : α → K) {l : List α} {a : α} :
    a ∈ sortByKeyDesc k l ↔ a ∈ l :=
  (sortByKeyDesc_perm k l).mem_iff

theorem sortByKeyDesc_nodup {α K : Type} [LinearOrder K] (k : α → K) {l : List α}
    (h : l.Nodup) : (sortByKeyDesc k l).Nodup :=
  (sortByKeyDesc_perm k l).symm.nodup h

/-! ### Generic helper lemmas -/

theorem head_some_mem {α : Type} {l : List α} {a : α} (h : l.head? = some a) : a ∈ l := by
  cases l with
  | nil => simp at h
  | cons x t =>
    simp only [List.head?] at h
    injection h with h
    rw [← h]
    exact List.mem_cons_self x t

theorem le_foldr_max {l : List ℕ} {x : ℕ} (h : x ∈ l) : x ≤ l.foldr max 0 := by
  induction l with
  | nil => cases h
  | cons a t ih =>
    rcases List.mem_cons.mp h with rfl | hx
    · exact le_max_left _ _
    · exact le_trans (ih hx) (le_max_right _ _)

theorem isPrefixOf_iff_parts (n h : List Char) :
    n.isPrefixOf h = true ↔ ∃ t, h = n ++ t := by
  induction n generalizing h with
  | nil => simp [List.isPrefixOf]
  | cons a as ih =>
    cases h with
    | nil => simp [List.isPrefixOf]
    | cons b bs =>
      simp only [List.isPrefixOf, Bool.and_eq_true, beq_iff_eq, ih, List.cons_append]
      constructor
      · rintro ⟨rfl, t, rfl⟩
        exact ⟨t, rfl⟩
      · rintro ⟨t, ht⟩
        injection ht with h1 h2
        exact ⟨h1.symm, t, h2⟩

theorem isSub_iff_parts (n h : List Char) :
    isSub n h = true ↔ ∃ pre post, h = pre ++ n ++ post := by
  induction h with
  | nil =>
    simp only [isSub, List.isEmpty_iff]
    constructor
    · rintro rfl
      exact ⟨[], [], rfl⟩
    · rintro ⟨pre, post, hp⟩
      rcases List.append_eq_nil.mp hp.symm with ⟨h1, _⟩
      exact (List.append_eq_nil.mp h1).2
  | cons c t ih =>
    simp only [isSub, Bool.or_eq_true, isPrefixOf_iff_parts, ih]
    constructor
    · rintro (⟨post, hp⟩ | ⟨pre, post, hp⟩)
      · exact ⟨[], post, by simp [hp]⟩
      · exact ⟨c :: pre, post, by simp [hp]⟩
    · rintro ⟨pre, post, hp⟩
      cases pre with
      | nil =>
        refine Or.inl ⟨post, ?_⟩
        simpa using hp
      | cons p ps =>
        right
        injection hp with h1 h2
        exact ⟨ps, post, h2⟩

theorem lex_le_fst {α β : Type} [LinearOrder α] [LinearOrder β]
    {x₁ x₂ : α} {y₁ y₂ : β} (h : toLex (x₁, y₁) ≤ toLex (x₂, y₂)) : x₁ ≤ x₂ := by
  rcases (Prod.Lex.le_iff _ _).mp h with h1 | ⟨h1, _⟩
  · exact le_of_lt h1
  · exact le_of_eq h1

theorem lex_le_snd {α β : Type} [LinearOrder α] [LinearOrder β]
    {x₁ x₂ : α} {y₁ y₂ : β} (h : toLex (x₁, y₁) ≤ toLex (x₂, y₂)) (he : x₁ = x₂) :
    y₁ ≤ y₂ := by
  rcases (Prod.Lex.le_iff _ _).mp h with h1 | ⟨_, h2⟩
  · rw [he] at h1
    exact absurd h1 (lt_irrefl _)
  · exact h2

theorem mkRat_half : (mkRat 1 2 : ℚ) = 1 / 2 := by
  rw [Rat.mkRat_eq_div]
  norm_num

theorem mkRat_seven_halves : (mkRat 7 2 : ℚ) = 7 / 2 := by
  rw [Rat.mkRat_eq_div]
  norm_num

/-! ### The matching predicates agree with the spec's wording -/

theorem author_conditions_iff (p : TasteProfile) (b : Book) :
    author_conditions p b = true ↔ authorMatchSpec p b := by
  simp only [author_conditions, List.any_eq_true, icontains, isSub_iff_parts,
    authorMatchSpec]

theorem publisher_conditions_iff (p : TasteProfile) (b : Book) :
    publisher_conditions p b = true ↔ publisherMatchSpec p b := by
  simp only [publisher_conditions, List.any_eq_true, publisherMatchSpec]
  constructor
  · rintro ⟨q, hq, hmatch⟩
    refine ⟨q, hq, ?_⟩
    cases hpub : b.publisher with
    | none => rw [hpub] at hmatch; cases hmatch
    | some pub =>
      rw [hpub] at hmatch
      exact ⟨pub, rfl, of_decide_eq_true hmatch⟩
  · rintro ⟨q, hq, pub, hpub, heq⟩
    refine ⟨q, hq, ?_⟩
    rw [hpub]
    exact decide_eq_true heq

theorem rating_condition_iff (p : TasteProfile) (b : Book) :
    rating_condition p b = true ↔ ratingMatchSpec p b := by
  simp only [rating_condition, ratingMatchSpec]
  cases hr : b.average_rating with
  | none => simp
  | some r =>
    simp only [Bool.and_eq_true, decide_eq_true_iff, qsub_eq, qadd_eq, mkRat_half]
    constructor
    · rintro ⟨h1, h2⟩
      exact ⟨r, rfl, h1, h2⟩
    · rintro ⟨r', hr', h1, h2⟩
      injection hr' with hr'
      subst hr'
      exact ⟨h1, h2⟩

/-- C1 counterexample: a taste profile with known authors but an empty
known-publisher set (the one loaned book has a `NULL` publisher) assigns
no tier at all — the view raises at the `Case` construction and the
personalized request fails, even though an available candidate the
tier-3 rule would match is in the catalog. -/
theorem tier_rules_crash_counterexample :
    userLoans stateC1cx userC1cx ≠ [] ∧
    read_authors stateC1cx userC1cx = ["Jane Doe"] ∧
    read_publishers stateC1cx userC1cx = [] ∧
    candC1cx ∈ candidateBooks stateC1cx (taste_profile stateC1cx userC1cx) ∧
    candC1cx.is_available = true ∧
    user_recommendations stateC1cx ("cruz") = .error .emptyWhenCondition := by
  decide

/-- C1 amended: whenever the profile's known-author and known-publisher
sets are both nonempty — the only profiles for which the view computes
tiers at all — the tier is decided by the first matching rule in the
fixed priority order (4: author and publisher; 3: author; 2: publisher;
1: rating within half a point of the average enjoyed rating;
0: otherwise), not additively; when either set is empty the view raises
at the `Case` construction instead of assigning tiers.  On the profile
built from one book authored "Jane Doe" with publisher "Acme", the three
example candidates score 4, 3 and 2. -/
theorem tier_first_match_wins :
    (∀ (p : TasteProfile) (b : Book),
      p.read_authors ≠ [] → p.read_publishers ≠ [] →
      (priority_score p b = 4 ↔ authorMatchSpec p b ∧ publisherMatchSpec p b) ∧
      (priority_score p b = 3 ↔ authorMatchSpec p b ∧ ¬ publisherMatchSpec p b) ∧
      (priority_score p b = 2 ↔ ¬ authorMatchSpec p b ∧ publisherMatchSpec p b) ∧
      (priority_score p b = 1 ↔
        ¬ authorMatchSpec p b ∧ ¬ publisherMatchSpec p b ∧ ratingMatchSpec p b) ∧
      (priority_score p b = 0 ↔
        ¬ authorMatchSpec p b ∧ ¬ publisherMatchSpec p b ∧ ¬ ratingMatchSpec p b)) ∧
    (∀ (st : LibState) (name : String) (u : User), getUser st name = some u →
      userLoans st u ≠ [] →
      (read_authors st u = [] ∨ read_publishers st u = []) →
      user_recommendations st name = .error .emptyWhenCondition) ∧
    profileC1 = taste_profile stateC1 userC1 ∧
    profileC1.read_authors ≠ [] ∧
    profileC1.read_publishers ≠ [] ∧
    priority_score profileC1 candBothC1 = 4 ∧
    priority_score profileC1 candAuthorC1 = 3 ∧
    priority_score profileC1 candPubC1 = 2 := by
  refine ⟨?_, ?_, rfl, by decide, by decide, by decide, by decide, by decide⟩
  · intro p b _ _
    have hA := (author_conditions_iff p b).symm
    have hP := (publisher_conditions_iff p b).symm
    have hR := (rating_condition_iff p b).symm
    cases ha : author_conditions p b <;> cases hp : publisher_conditions p b <;>
      cases hr : rating_condition p b <;>
      simp only [ha] at hA <;> simp only [hp] at hP <;> simp only [hr] at hR <;>
      simp [priority_score, caseWhen, ha, hp, hr, hA, hP, hR]
  · intro st name u h1 h2 hdisj
    have hcf : caseConstructionFails (taste_profile st u) = true := by
      rcases hdisj with hd | hd <;> simp [caseConstructionFails, taste_profile, hd]
    simp [user_recommendations, h1, h2, hcf]

/-- C1 amended, witness: the tier-4 rule instantiated on the Jane Doe /
Acme profile, and a concrete crash on an empty known-publisher profile. -/
theorem tier_first_match_wins_witness :
    (priority_score profileC1 candBothC1 = 4 ↔
      authorMatchSpec profileC1 candBothC1 ∧ publisherMatchSpec profileC1 candBothC1) ∧
    user_recommendations stateC1cx ("cruz") = .error .emptyWhenCondition :=
  ⟨(tier_first_match_wins.1 profileC1 candBothC1 (by decide) (by decide)).1,
   tier_first_match_wins.2.1 stateC1cx ("cruz") userC1cx (by decide) (by decide)
     (Or.inr (by decide))⟩

/-- C5 (code_bug evidence): on a catalog whose surrogate primary key and
business `book_id` diverge, the personalized output contains the very
book the user has already borrowed and returned — the exclusion filter
compares `Book.book_id` business keys against the loans' raw foreign-key
values (book-row primary keys). -/
theorem read_book_recommended_back :
    user_recommendations stateC5 ("ana") = .ok ⟨.personalized, [bookC5]⟩ ∧
    loanC5 ∈ userLoans stateC5 userC5 ∧
    loanBook stateC5 loanC5 = some bookC5 ∧
    bookC5.book_id ∈ spec_readBookIds stateC5 userC5 ∧
    read_book_ids stateC5 userC5 = [1] ∧
    bookC5.book_id = 2 := by
  decide

/-- C6 counterexample: a user whose single loaned book has the defined
catalog rating 0 receives `averageEnjoyedRating = 3.5`, not the
arithmetic mean 0 of the defined ratings (Python's `or` treats the zero
`Decimal` as falsy). -/
theorem avg_rating_zero_mean_counterexample :
    definedBookRatings stateC6 userC6 = [0] ∧
    avg_rating stateC6 userC6 = mkRat 7 2 ∧
    avg_rating stateC6 userC6 ≠
      (definedBookRatings stateC6 userC6).sum /
        ((definedBookRatings stateC6 userC6).length : ℚ) := by
  refine ⟨by decide, by decide, ?_⟩
  rw [show definedBookRatings stateC6 userC6 = [(0 : ℚ)] from by decide,
    show avg_rating stateC6 userC6 = mkRat 7 2 from by decide, mkRat_seven_halves]
  norm_num

/-- C6 amended: `averageEnjoyedRating` equals 3.5 when no loaned book has
a defined `average_rating` and also when the arithmetic mean of the
defined ratings is exactly 0; in every other case it equals that
arithmetic mean (taken over loans, not the user's own ratings). -/
theorem avg_rating_characterization : ∀ (st : LibState) (u : User),
    (definedBookRatings st u = [] → avg_rating st u = 7 / 2) ∧
    ((definedBookRatings st u).sum / ((definedBookRatings st u).length : ℚ) = 0 →
      avg_rating st u = 7 / 2) ∧
    (definedBookRatings st u ≠ [] →
      (definedBookRatings st u).sum / ((definedBookRatings st u).length : ℚ) ≠ 0 →
      avg_rating st u =
        (definedBookRatings st u).sum / ((definedBookRatings st u).length : ℚ)) := by
  intro st u
  by_cases hrs : definedBookRatings st u = []
  · refine ⟨fun _ => ?_, fun _ => ?_, fun hne _ => absurd hrs hne⟩ <;>
      rw [avg_rating, sqlAvg, if_pos hrs, pyOrDecimal, mkRat_seven_halves]
  · have hmean : qdivNat (qsum (definedBookRatings st u)) (definedBookRatings st u).length =
        (definedBookRatings st u).sum / ((definedBookRatings st u).length : ℚ) := by
      rw [qdivNat_eq, qsum_eq]
    have havg : avg_rating st u =
        if (definedBookRatings st u).sum / ((definedBookRatings st u).length : ℚ) = 0
        then mkRat 7 2
        else (definedBookRatings st u).sum / ((definedBookRatings st u).length : ℚ) := by
      rw [avg_rating, sqlAvg, if_neg hrs, pyOrDecimal, hmean]
    refine ⟨fun h => absurd h hrs, fun hz => ?_, fun _ hnz => ?_⟩
    · rw [havg, if_pos hz, mkRat_seven_halves]
    · rw [havg, if_neg hnz]

/-- C6 amended, witness: a loaned book rated 4 gives mean 4 ≠ 0, and the
computed `averageEnjoyedRating` equals that mean. -/
theorem avg_rating_characterization_witness :
    avg_rating stateC6w userC6 =
      (definedBookRatings stateC6w userC6).sum /
        ((definedBookRatings stateC6w userC6).length : ℚ) :=
  (avg_rating_characterization stateC6w userC6).2.2 (by decide)
    (by rw [show definedBookRatings stateC6w userC6 = [(4 : ℚ)] from by decide]; norm_num)

/-- C7 (code_bug evidence): a non-numeric rating threshold aborts the
request.  `Decimal('abc')` raises `decimal.InvalidOperation`, which the
`except (ValueError, TypeError)` clauses of `home` and `user_dashboard`
do not catch, so instead of ignoring the filter the view propagates the
exception; a well-formed threshold works as intended. -/
theorem rating_threshold_parse_failure_aborts :
    home stateC7 ("") ("abc") ("") ("") = .error .invalidOperation ∧
    userDashboardReadingHistory stateC7 userC7 ("abc") = .error .invalidOperation ∧
    caughtByValueTypeClause .invalidOperation = false ∧
    home stateC7 ("") ("4.0") ("") ("") = .ok [bookC7] ∧
    userDashboardReadingHistory stateC7 userC7 ("4.0") = .ok [] := by
  decide

/-- C8: the recommendation operation fails exactly when the username does
not resolve to a user, and an existing user without loans receives the
cold-start result rather than an error. -/
theorem not_found_iff_unknown_user :
    (∀ (st : LibState) (name : String),
      user_recommendations st name = .error .notFound ↔ getUser st name = none) ∧
    (∀ (st : LibState) (name : String) (u : User), getUser st name = some u →
      userLoans st u = [] →
      user_recommendations st name = .ok ⟨.coldStart, cold_start_books st⟩) := by
  constructor
  · intro st name
    cases hg : getUser st name with
    | none => simp [user_recommendations, hg]
    | some u =>
      simp only [user_recommendations, hg]
      split
      · simp
      · split <;> simp
  · intro st name u h1 h2
    simp [user_recommendations, h1, h2]

/-- C8 witness: an unknown username errors, a known loan-free user gets
the cold-start list. -/
theorem not_found_iff_unknown_user_witness :
    user_recommendations stateC8 ("dan") = .ok ⟨.coldStart, cold_start_books stateC8⟩ ∧
    user_recommendations stateC8 ("nobody") = .error .notFound := by
  constructor
  · exact not_found_iff_unknown_user.2 stateC8 ("dan") userC8 (by decide) (by decide)
  · exact (not_found_iff_unknown_user.1 stateC8 ("nobody")).mpr (by decide)

/-- C4: an existing user with zero loans receives the cold-start result:
at most 20 books, all available, ordered by rating descending then
ratings-count descending (SQL `NULL` ratings sorting first), produced
without consulting profile or scorer. -/
theorem cold_start_result : ∀ (st : LibState) (name : String) (u : User),
    getUser st name = some u → userLoans st u = [] →
    user_recommendations st name = .ok ⟨.coldStart, cold_start_books st⟩ ∧
    (cold_start_books st).length ≤ 20 ∧
    (∀ b ∈ cold_start_books st, b.is_available = true) ∧
    (cold_start_books st).Chain' (fun a b =>
      ratingKey b.average_rating ≤ ratingKey a.average_rating ∧
      (ratingKey a.average_rating = ratingKey b.average_rating →
        b.ratings_count ≤ a.ratings_count)) := by
  intro st name u h1 h2
  refine ⟨by simp [user_recommendations, h1, h2], List.length_take_le _ _, ?_, ?_⟩
  · intro b hb
    have hmem : b ∈ st.books.filter (fun x => x.is_available) :=
      (mem_sortByKeyDesc coldKey).mp (List.mem_of_mem_take hb)
    simpa using (List.mem_filter.mp hmem).2
  · have hs : List.Sorted (byKeyDesc coldKey) (cold_start_books st) :=
      List.Pairwise.sublist (List.take_sublist _ _) (sortByKeyDesc_sorted coldKey _)
    refine List.Pairwise.chain' (hs.imp ?_)
    intro a b hab
    have h' : toLex (ratingKey b.average_rating, b.ratings_count) ≤
        toLex (ratingKey a.average_rating, a.ratings_count) := hab
    exact ⟨lex_le_fst h', fun he => lex_le_snd h' he.symm⟩

/-- C4 witness: a concrete loan-free user. -/
theorem cold_start_result_witness :
    user_recommendations stateC8 ("dan") = .ok ⟨.coldStart, cold_start_books stateC8⟩ ∧
    (cold_start_books stateC8).length ≤ 20 :=
  ⟨(cold_start_result stateC8 ("dan") userC8 (by decide) (by decide)).1,
   (cold_start_result stateC8 ("dan") userC8 (by decide) (by decide)).2.1⟩

theorem personalized_branch {st : LibState} {name : String} {u : User}
    (h1 : getUser st name = some u) (h2 : userLoans st u ≠ [])
    (hA : read_authors st u ≠ []) (hP : read_publishers st u ≠ []) :
    user_recommendations st name =
      .ok ⟨.personalized, final_recommendations st (taste_profile st u)⟩ := by
  have hcf : caseConstructionFails (taste_profile st u) = false := by
    simp [caseConstructionFails, taste_profile, hA, hP]
  simp [user_recommendations, h1, h2, hcf]

theorem recKey_le_components {st : LibState} {p : TasteProfile} {a b : Book}
    (h : byKeyDesc (recKey st p) a b) :
    priority_score p b ≤ priority_score p a ∧
    (priority_score p a = priority_score p b →
      ratingKey b.average_rating ≤ ratingKey a.average_rating) := by
  have h' : toLex (priority_score p b,
      toLex (ratingKey b.average_rating, toLex (popularity st b, intKey b.publication_year))) ≤
      toLex (priority_score p a,
        toLex (ratingKey a.average_rating, toLex (popularity st a, intKey a.publication_year))) := h
  exact ⟨lex_le_fst h', fun he => lex_le_fst (lex_le_snd h' he.symm)⟩

/-- C3 counterexample: the Branch A output is drawn from the code's
candidate set — available books whose business `book_id` avoids the
loans' raw foreign-key values — not from the spec's readBookIds-excluded
candidates: with surrogate pk 1 and business `book_id` 2, the book the
user has already borrowed and returned re-enters the candidate list,
self-matches its own author and publisher (tier 4) and appears in the
top-30 result of the claim's Branch A scenario. -/
theorem branch_a_contains_read_book :
    10 ≤ priority_count stateC3cx (taste_profile stateC3cx userC3cx) ∧
    user_recommendations stateC3cx ("hal") =
      .ok ⟨.personalized, final_recommendations stateC3cx (taste_profile stateC3cx userC3cx)⟩ ∧
    readBookC3cx ∈ final_recommendations stateC3cx (taste_profile stateC3cx userC3cx) ∧
    readBookC3cx.book_id ∈ spec_readBookIds stateC3cx userC3cx ∧
    priority_score (taste_profile stateC3cx userC3cx) readBookC3cx = 4 := by
  decide

/-- C3 amended: when the profile's known-author and known-publisher sets
are both nonempty (otherwise the view raises at the `Case` construction)
and at least 10 candidates score tier at least 2, the result is the
first 30 entries of the code's candidate list — available books whose
business `book_id` avoids the loans' raw foreign-key values, which can
re-admit previously borrowed books when pk and `book_id` diverge —
sorted descending by
`(tier, average_rating, popularity, publication_year)`; consequently
adjacent entries have non-increasing tiers and, within equal tiers,
non-increasing ratings. -/
theorem branch_a_top30 : ∀ (st : LibState) (name : String) (u : User),
    getUser st name = some u → userLoans st u ≠ [] →
    read_authors st u ≠ [] → read_publishers st u ≠ [] →
    10 ≤ priority_count st (taste_profile st u) →
    user_recommendations st name =
      .ok ⟨.personalized, (recommendationsSorted st (taste_profile st u)).take 30⟩ ∧
    List.Sorted (byKeyDesc (recKey st (taste_profile st u)))
      (recommendationsSorted st (taste_profile st u)) ∧
    (recommendationsSorted st (taste_profile st u)).Perm
      (candidateBooks st (taste_profile st u)) ∧
    ((recommendationsSorted st (taste_profile st u)).take 30).Chain' (fun a b =>
      priority_score (taste_profile st u) b ≤ priority_score (taste_profile st u) a ∧
      (priority_score (taste_profile st u) a = priority_score (taste_profile st u) b →
        ratingKey b.average_rating ≤ ratingKey a.average_rating ∧
        ∀ ra rb : ℚ, a.average_rating = some ra → b.average_rating = some rb →
          rb ≤ ra)) := by
  intro st name u h1 h2 hA hP h10
  have heq : user_recommendations st name =
      .ok ⟨.personalized, (recommendationsSorted st (taste_profile st u)).take 30⟩ := by
    rw [personalized_branch h1 h2 hA hP, final_recommendations, if_neg (by omega)]
    rfl
  refine ⟨heq, sortByKeyDesc_sorted _ _, sortByKeyDesc_perm _ _, ?_⟩
  have hs : List.Sorted (byKeyDesc (recKey st (taste_profile st u)))
      ((recommendationsSorted st (taste_profile st u)).take 30) :=
    List.Pairwise.sublist (List.take_sublist _ _) (sortByKeyDesc_sorted _ _)
  refine List.Pairwise.chain' (hs.imp ?_)
  intro a b hab
  obtain ⟨hscore, hrk⟩ := recKey_le_components hab
  refine ⟨hscore, fun he => ⟨hrk he, ?_⟩⟩
  intro ra rb hra hrb
  have := hrk he
  rw [hra, hrb] at this
  simp only [ratingKey] at this
  exact_mod_cast this

/-- C3 amended, witness: a state with exactly ten tier-2 candidates and
nonempty known-author and known-publisher sets. -/
theorem branch_a_top30_witness :
    user_recommendations stateC3 ("walt") =
      .ok ⟨.personalized, (recommendationsSorted stateC3 (taste_profile stateC3 userC3)).take 30⟩ :=
  (branch_a_top30 stateC3 ("walt") userC3 (by decide) (by decide) (by decide)
    (by decide) (by decide)).1

theorem popKey_le_components {a b : Book} (h : byKeyDesc popKey a b) :
    b.ratings_count ≤ a.ratings_count ∧
    (a.ratings_count = b.ratings_count →
      ratingKey b.average_rating ≤ ratingKey a.average_rating) := by
  have h' : toLex (b.ratings_count, ratingKey b.average_rating) ≤
      toLex (a.ratings_count, ratingKey a.average_rating) := h
  exact ⟨lex_le_fst h', fun he => lex_le_snd h' he.symm⟩

/-- C2 counterexample: the supplemental query's exclusion is the code's
— business `book_id` against the loans' raw foreign-key values — not the
spec's readBookIds, so a previously borrowed and returned book (surrogate
pk 1, business `book_id` 2, blank authors, `NULL` publisher, rated 4.5)
scores only tier 1, escapes the priority part, and lands in the
supplemental list of the sparse-case output. -/
theorem supplemental_contains_read_book :
    priority_count stateC2cx (taste_profile stateC2cx userC2cx) < 10 ∧
    user_recommendations stateC2cx ("gil") =
      .ok ⟨.personalized,
        priority_recs stateC2cx (taste_profile stateC2cx userC2cx) ++
          popular_books stateC2cx (taste_profile stateC2cx userC2cx)⟩ ∧
    readBookC2cx ∈ popular_books stateC2cx (taste_profile stateC2cx userC2cx) ∧
    readBookC2cx.book_id ∈ spec_readBookIds stateC2cx userC2cx ∧
    readBookC2cx ∉ priority_recs stateC2cx (taste_profile stateC2cx userC2cx) := by
  decide

/-- C2 amended: in the sparse case (fewer than 10 candidates of tier at
least 2, with the profile's known-author and known-publisher sets both
nonempty — otherwise the view raises at the `Case` construction) the
output is the first up-to-15 tier-ge-2 candidates in sorted order,
followed — without re-sorting and without tier filtering — by up to 15
available books rated at least 4.0 whose business `book_id` avoids the
loans' raw foreign-key values and the `book_id`s of the first part (the
code's exclusion, which lets a previously borrowed book whose pk differs
from its `book_id` reach the supplemental list), ordered by ratings count
then rating, with total length at most 30 and no row repeated. -/
theorem branch_b_sparse_fallback : ∀ (st : LibState) (name : String) (u : User),
    getUser st name = some u → userLoans st u ≠ [] →
    read_authors st u ≠ [] → read_publishers st u ≠ [] →
    priority_count st (taste_profile st u) < 10 → st.books.Nodup →
    user_recommendations st name =
      .ok ⟨.personalized,
        priority_recs st (taste_profile st u) ++ popular_books st (taste_profile st u)⟩ ∧
    priority_recs st (taste_profile st u) =
      ((recommendationsSorted st (taste_profile st u)).filter
        (fun b => 2 ≤ priority_score (taste_profile st u) b)).take 15 ∧
    (priority_recs st (taste_profile st u)).length ≤ 15 ∧
    (popular_books st (taste_profile st u)).length ≤ 15 ∧
    (priority_recs st (taste_profile st u) ++ popular_books st (taste_profile st u)).length ≤ 30 ∧
    (∀ b ∈ priority_recs st (taste_profile st u),
      2 ≤ priority_score (taste_profile st u) b ∧ b.is_available = true) ∧
    (∀ b ∈ popular_books st (taste_profile st u),
      b.is_available = true ∧
      (∃ r : ℚ, b.average_rating = some r ∧ 4 ≤ r) ∧
      b.book_id ∉ (priority_recs st (taste_profile st u)).map (fun x => x.book_id) ∧
      (∀ fk ∈ (taste_profile st u).read_book_ids, (fk : ℤ) ≠ b.book_id)) ∧
    (popular_books st (taste_profile st u)).Chain' (fun a b =>
      b.ratings_count ≤ a.ratings_count ∧
      (a.ratings_count = b.ratings_count →
        ratingKey b.average_rating ≤ ratingKey a.average_rating)) ∧
    (priority_recs st (taste_profile st u) ++ popular_books st (taste_profile st u)).Nodup := by
  intro st name u h1 h2 hA hP hlt hnd
  refine ⟨?_, rfl, List.length_take_le _ _, List.length_take_le _ _, ?_, ?_, ?_, ?_, ?_⟩
  · rw [personalized_branch h1 h2 hA hP, final_recommendations, if_pos hlt]
  · rw [List.length_append]
    have hp15 : (priority_recs st (taste_profile st u)).length ≤ 15 :=
      List.length_take_le _ _
    have hs15 : (popular_books st (taste_profile st u)).length ≤ 15 :=
      List.length_take_le _ _
    omega
  · intro b hb
    have hmem := List.mem_of_mem_take hb
    have h2le := of_decide_eq_true (List.mem_filter.mp hmem).2
    have hcand : b ∈ candidateBooks st (taste_profile st u) :=
      (mem_sortByKeyDesc _).mp (List.mem_of_mem_filter hmem)
    have := (List.mem_filter.mp hcand).2
    rw [Bool.and_eq_true] at this
    exact ⟨h2le, this.1⟩
  · intro b hb
    have hmem := List.mem_of_mem_take hb
    have hfil := (List.mem_filter.mp ((mem_sortByKeyDesc _).mp hmem)).2
    rw [Bool.and_eq_true, Bool.and_eq_true, Bool.and_eq_true] at hfil
    obtain ⟨⟨⟨hav, hrate⟩, hfk⟩, hpid⟩ := hfil
    refine ⟨hav, ?_, ?_, ?_⟩
    · cases hr : b.average_rating with
      | none => rw [hr] at hrate; cases hrate
      | some r =>
        rw [hr] at hrate
        exact ⟨r, rfl, of_decide_eq_true hrate⟩
    · intro hin
      rw [Bool.not_eq_true'] at hpid
      have : ((priority_recs st (taste_profile st u)).map (fun x => x.book_id)).contains
          b.book_id = true := List.elem_iff.mpr hin
      rw [this] at hpid
      cases hpid
    · intro fk hfkmem
      rw [Bool.not_eq_true'] at hfk
      intro hfkeq
      have : (taste_profile st u).read_book_ids.any (fun x => (x : ℤ) = b.book_id) = true :=
        List.any_eq_true.mpr ⟨fk, hfkmem, decide_eq_true hfkeq⟩
      rw [this] at hfk
      cases hfk
  · have hs : List.Sorted (byKeyDesc popKey) (popular_books st (taste_profile st u)) :=
      List.Pairwise.sublist (List.take_sublist _ _) (sortByKeyDesc_sorted _ _)
    exact List.Pairwise.chain' (hs.imp (fun hab => popKey_le_components hab))
  · have hpn : (priority_recs st (taste_profile st u)).Nodup :=
      List.Nodup.sublist (List.take_sublist _ _)
        (List.Nodup.filter _ (sortByKeyDesc_nodup _ (List.Nodup.filter _ hnd)))
    have hsn : (popular_books st (taste_profile st u)).Nodup :=
      List.Nodup.sublist (List.take_sublist _ _) (sortByKeyDesc_nodup _ (List.Nodup.filter _ hnd))
    refine List.nodup_append.mpr ⟨hpn, hsn, ?_⟩
    intro a haP haS
    have hmem := List.mem_of_mem_take haS
    have hfil := (List.mem_filter.mp ((mem_sortByKeyDesc _).mp hmem)).2
    rw [Bool.and_eq_true] at hfil
    rw [Bool.not_eq_true'] at hfil
    have : ((priority_recs st (taste_profile st u)).map (fun x => x.book_id)).contains
        a.book_id = true :=
      List.elem_iff.mpr (List.mem_map.mpr ⟨a, haP, rfl⟩)
    rw [this] at hfil
    exact absurd hfil.2 (by simp)

/-- C2 amended, witness: a state with one tier-2 candidate, one
supplemental highly rated book, and nonempty known-author and
known-publisher sets. -/
theorem branch_b_sparse_fallback_witness :
    user_recommendations stateC2 ("walt") =
      .ok ⟨.personalized,
        priority_recs stateC2 (taste_profile stateC2 userC3) ++
          popular_books stateC2 (taste_profile stateC2 userC3)⟩ :=
  (branch_b_sparse_fallback stateC2 ("walt") userC3 (by decide) (by decide)
    (by decide) (by decide) (by decide) (by decide)).1

theorem uniqueBook_mem {st : LibState} {bid : ℤ} {b : Book}
    (h : uniqueBookByBusinessId st bid = some b) : b ∈ st.books := by
  unfold uniqueBookByBusinessId at h
  split at h
  next x heq =>
    injection h with h
    subst h
    refine List.mem_of_mem_filter (l := st.books) (p := fun x => x.book_id = bid) ?_
    rw [heq]
    exact List.mem_cons_self _ _
  next => cases h

theorem strong_inv_implies_biconditional {st : LibState}
    (h : strongAvailabilityInv st) : availabilityLoanInv st := by
  intro b hb
  have hc := h.2 b hb
  constructor
  · intro hav
    rw [hav] at hc
    simpa using hc
  · intro h1
    cases hx : b.is_available with
    | false => rfl
    | true =>
      rw [hx] at hc
      simp at hc
      omega

theorem borrow_core (st st2 : LibState) (b : Book) (nl : Loan)
    (hbooks : st2.books = st.books.map
      (fun x => if x.id = b.id then {x with is_available := false} else x))
    (hloans : st2.loans = st.loans ++ [nl])
    (hb : b ∈ st.books) (hav : b.is_available = true)
    (hop : nl.is_returned = false) (hbk : nl.book_id = b.id)
    (hfresh : ∀ l ∈ st.loans, l.id < nl.id)
    (h : strongAvailabilityInv st) : strongAvailabilityInv st2 := by
  obtain ⟨hnodup, hcount⟩ := h
  constructor
  · rw [hloans, List.map_append]
    refine List.nodup_append.mpr ⟨hnodup, List.nodup_singleton _, ?_⟩
    intro a ha ha2
    obtain ⟨x, hx, rfl⟩ := List.mem_map.mp ha
    have := hfresh x hx
    simp only [List.map_cons, List.map_nil, List.mem_singleton] at ha2
    omega
  · intro b' hb'
    rw [hbooks] at hb'
    obtain ⟨x, hx, rfl⟩ := List.mem_map.mp hb'
    have hcx := hcount x hx
    have hcb := hcount b hb
    rw [hav] at hcb
    simp only [if_pos, if_true] at hcb
    by_cases hxb : x.id = b.id
    · rw [if_pos hxb]
      simp only [openLoanCount, hloans, List.countP_append, List.countP_cons,
        List.countP_nil, hop, hbk]
      rw [hxb] at hcx ⊢
      simp only [openLoanCount] at hcb
      simp [hcb]
    · rw [if_neg hxb]
      simp only [openLoanCount, hloans, List.countP_append, List.countP_cons,
        List.countP_nil, hop, hbk]
      have : (decide (b.id = x.id)) = false := by
        simp
        exact fun hc => hxb hc.symm
      simp only [openLoanCount] at hcx
      simp [this, hcx]

theorem return_core (st st2 : LibState) (b : Book) (l : Loan) (newR : Option ℚ) (now : ℕ)
    (hbooks : st2.books = st.books.map
      (fun x => if x.id = b.id then {x with is_available := true} else x))
    (hloans : st2.loans = st.loans.map
      (fun x => if x.id = l.id then
        {x with user_rating := newR, is_returned := true, returned_date := some now}
      else x))
    (hb : b ∈ st.books) (hlmem : l ∈ st.loans)
    (hlopen : l.is_returned = false) (hlbook : l.book_id = b.id)
    (h : strongAvailabilityInv st) : strongAvailabilityInv st2 := by
  obtain ⟨hnodup, hcount⟩ := h
  have hpl : (fun y => !y.is_returned && decide (y.book_id = b.id)) l = true := by
    simp [hlopen, hlbook]
  have hpos : 0 < openLoanCount st b.id :=
    List.countP_pos_iff.mpr ⟨l, hlmem, hpl⟩
  have hbav : b.is_available = false := by
    have hcb := hcount b hb
    cases hx : b.is_available with
    | false => rfl
    | true =>
      rw [hx] at hcb
      simp at hcb
      omega
  have hc1 : openLoanCount st b.id = 1 := by
    rw [hcount b hb, hbav]
    simp
  have hfilter : st.loans.filter (fun y => !y.is_returned && decide (y.book_id = b.id)) = [l] := by
    have hlen : (st.loans.filter
        (fun y => !y.is_returned && decide (y.book_id = b.id))).length = 1 := by
      rw [← List.countP_eq_length_filter]
      exact hc1
    obtain ⟨z, hz⟩ := List.length_eq_one.mp hlen
    have hlz : l ∈ [z] := by
      rw [← hz]
      exact List.mem_filter.mpr ⟨hlmem, hpl⟩
    rw [hz, List.mem_singleton.mp hlz]
  constructor
  · rw [hloans, List.map_map]
    have hcomp : ((fun x : Loan => x.id) ∘ (fun x => if x.id = l.id then
        {x with user_rating := newR, is_returned := true, returned_date := some now}
      else x)) = fun x : Loan => x.id := by
      funext x
      by_cases hx : x.id = l.id <;> simp [Function.comp, hx]
    rw [hcomp]
    exact hnodup
  · intro b' hb'
    rw [hbooks] at hb'
    obtain ⟨x, hx, rfl⟩ := List.mem_map.mp hb'
    by_cases hxb : x.id = b.id
    · rw [if_pos hxb]
      simp only
      rw [openLoanCount, hloans, List.countP_map]
      simp only [if_pos, if_true]
      apply List.countP_eq_zero.mpr
      intro y hy
      by_cases hyid : y.id = l.id
      · simp [Function.comp, hyid]
      · simp only [Function.comp, if_neg hyid, Bool.and_eq_true, Bool.not_eq_true',
          decide_eq_true_eq, not_and]
        intro hyopen hybook
        have hymem : y ∈ [l] := by
          rw [← hfilter]
          refine List.mem_filter.mpr ⟨hy, ?_⟩
          rw [hxb] at hybook
          simp [hyopen, hybook]
        exact hyid (by rw [List.mem_singleton.mp hymem])
    · rw [if_neg hxb]
      rw [openLoanCount, hloans, List.countP_map]
      have hcx := hcount x hx
      rw [openLoanCount] at hcx
      rw [← hcx]
      apply List.countP_congr
      intro y hy
      by_cases hyid : y.id = l.id
      · have hyl : y = l :=
          List.inj_on_of_nodup_map hnodup hy hlmem hyid
        subst hyl
        simp [Function.comp, hyid, hlbook, hlopen]
        intro hc
        exact absurd hc.symm hxb
      · simp [Function.comp, hyid]

theorem getOrCreateUser_books (st : LibState) (s : String) :
    (getOrCreateUser st s).1.books = st.books := by
  unfold getOrCreateUser
  split <;> rfl

theorem getOrCreateUser_loans (st : LibState) (s : String) :
    (getOrCreateUser st s).1.loans = st.loans := by
  unfold getOrCreateUser
  split <;> rfl

theorem createdLoan_getOrCreateUser (st : LibState) (s : String) (u : User) (b : Book) (now : ℕ) :
    createdLoan (getOrCreateUser st s).1 u b now = createdLoan st u b now := by
  unfold createdLoan nextLoanId
  rw [getOrCreateUser_loans]

/-- C9 counterexample: the biconditional invariant as stated is not
preserved by a return step.  A state with one available book referenced
by two open loans satisfies the biconditional, and returning the book
leaves one open loan on an available book, violating it. -/
theorem availability_biconditional_not_inductive :
    availabilityLoanInv stateC9 ∧
    ¬ availabilityLoanInv (return_book stateC9 1 ("") 5).1 := by
  constructor
  · decide
  · decide

/-- C9 amended: with the invariant strengthened to "loan primary keys are
unique and each book's open-loan count is 0 when available, 1 when not"
(which implies the stated biconditional), every borrow step and every
return step preserves it: a successful borrow creates one open loan and
marks the book unavailable, and a return closes the single open loan and
marks it available. -/
theorem strong_availability_inv_preserved :
    ∀ (st : LibState) (bid : ℤ) (uname rating : String) (now : ℕ),
    strongAvailabilityInv st →
    availabilityLoanInv st ∧
    strongAvailabilityInv (borrow_book st bid uname now).1 ∧
    strongAvailabilityInv (return_book st bid rating now).1 := by
  intro st bid uname rating now h
  refine ⟨strong_inv_implies_biconditional h, ?_, ?_⟩
  · cases hub : uniqueBookByBusinessId st bid with
    | none =>
      rw [show (borrow_book st bid uname now).1 = st from by simp [borrow_book, hub]]
      exact h
    | some b =>
      cases hav : b.is_available with
      | false =>
        rw [show (borrow_book st bid uname now).1 = st from by simp [borrow_book, hub, hav]]
        exact h
      | true =>
        by_cases hemp : String.mk (trimChars uname.data) = ""
        · rw [show (borrow_book st bid uname now).1 = st from by
            simp [borrow_book, hub, hav, hemp]]
          exact h
        · have hbooks : (borrow_book st bid uname now).1.books =
              st.books.map (fun x => if x.id = b.id then {x with is_available := false} else x) := by
            simp only [borrow_book, hub, hav, if_true, if_neg hemp]
            rw [getOrCreateUser_books]
          have hloans : (borrow_book st bid uname now).1.loans =
              st.loans ++ [createdLoan st
                ((getOrCreateUser st (String.mk (trimChars uname.data))).2) b now] := by
            simp only [borrow_book, hub, hav, if_true, if_neg hemp]
            rw [getOrCreateUser_loans, createdLoan_getOrCreateUser]
          refine borrow_core st _ b _ hbooks hloans (uniqueBook_mem hub) hav rfl rfl ?_ h
          intro l hl
          have hle : l.id ≤ (st.loans.map (fun x => x.id)).foldr max 0 :=
            le_foldr_max (List.mem_map.mpr ⟨l, hl, rfl⟩)
          simp only [createdLoan, nextLoanId]
          omega
  · cases hub : uniqueBookByBusinessId st bid with
    | none =>
      rw [show (return_book st bid rating now).1 = st from by simp [return_book, hub]]
      exact h
    | some b =>
      cases hfl : firstOpenLoan st b with
      | none =>
        rw [show (return_book st bid rating now).1 = st from by simp [return_book, hub, hfl]]
        exact h
      | some l =>
        have hlf : l ∈ st.loans.filter (fun x => x.book_id = b.id && !x.is_returned) :=
          (mem_sortByKeyDesc _).mp (head_some_mem hfl)
        have hlmem : l ∈ st.loans := List.mem_of_mem_filter hlf
        have hlprops := (List.mem_filter.mp hlf).2
        rw [Bool.and_eq_true, Bool.not_eq_true'] at hlprops
        have hbooks : (return_book st bid rating now).1.books =
            st.books.map (fun x => if x.id = b.id then {x with is_available := true} else x) := by
          simp [return_book, hub, hfl]
        have hloans : (return_book st bid rating now).1.loans =
            st.loans.map (fun x => if x.id = l.id then
              {x with
                user_rating :=
                  if rating = "" then l.user_rating
                  else match pyFloat rating with
                    | .ok q => some q
                    | .error _ => l.user_rating,
                is_returned := true, returned_date := some now}
            else x) := by
          simp only [return_book, hub, hfl]
          try rfl
        exact return_core st _ b l _ now hbooks hloans (uniqueBook_mem hub) hlmem
          hlprops.2 (of_decide_eq_true hlprops.1) h

/-- C9 amended, witness: the invariant holds of a one-book, loan-free state
and is preserved across a concrete borrow and return. -/
theorem strong_availability_inv_preserved_witness :
    strongAvailabilityInv (borrow_book stateC10 7 (" dan ") 3).1 :=
  (strong_availability_inv_preserved stateC10 7 (" dan ") ("") 3 (by decide)).2.1

/-- C10: a POST borrow of an available book never fails for an unknown
user: with a non-empty stripped username and no matching user row, a new
user is silently created with `full_name` equal to the username and email
`<username>@example.com`, and the loan is recorded against it; with a
whitespace-only username nothing is created and the state is unchanged. -/
theorem borrow_silently_creates_user :
    ∀ (st : LibState) (bid : ℤ) (uname : String) (now : ℕ) (b : Book),
    uniqueBookByBusinessId st bid = some b → b.is_available = true →
    ((String.mk (trimChars uname.data) ≠ "" →
      getUser st (String.mk (trimChars uname.data)) = none →
      borrow_book st bid uname now =
        ({ books := st.books.map
             (fun x => if x.id = b.id then {x with is_available := false} else x),
           users := st.users ++ [createdUser st (String.mk (trimChars uname.data))],
           loans := st.loans ++
             [createdLoan st (createdUser st (String.mk (trimChars uname.data))) b now] },
         .redirectedHome) ∧
      (createdUser st (String.mk (trimChars uname.data))).username =
        String.mk (trimChars uname.data) ∧
      (createdUser st (String.mk (trimChars uname.data))).full_name =
        String.mk (trimChars uname.data) ∧
      (createdUser st (String.mk (trimChars uname.data))).email =
        String.mk (trimChars uname.data) ++ "@example.com" ∧
      (createdLoan st (createdUser st (String.mk (trimChars uname.data))) b now).user_id =
        (createdUser st (String.mk (trimChars uname.data))).id ∧
      (createdLoan st (createdUser st (String.mk (trimChars uname.data))) b now).book_id =
        b.id ∧
      (createdLoan st (createdUser st (String.mk (trimChars uname.data))) b now).is_returned =
        false) ∧
     (String.mk (trimChars uname.data) = "" →
      borrow_book st bid uname now = (st, .invalidUsername))) := by
  intro st bid uname now b hub hav
  constructor
  · intro hemp hno
    rw [getUser] at hno
    refine ⟨?_, rfl, rfl, rfl, rfl, rfl, rfl⟩
    simp only [borrow_book, hub, hav, if_true, if_neg hemp, getOrCreateUser, hno]
    rfl
  · intro hemp
    simp [borrow_book, hub, hav, hemp]

/-- C10 witness: borrowing with username `" dan "` creates the user
`dan` with email `dan@example.com`; a whitespace only username leaves the
state untouched. -/
theorem borrow_silently_creates_user_witness :
    borrow_book stateC10 7 (" dan ") 3 =
      ({ books := stateC10.books.map
           (fun x => if x.id = bookC10.id then {x with is_available := false} else x),
         users := stateC10.users ++ [createdUser stateC10 (String.mk (trimChars (" dan ").data))],
         loans := stateC10.loans ++
           [createdLoan stateC10
             (createdUser stateC10 (String.mk (trimChars (" dan ").data))) bookC10 3] },
       .redirectedHome) ∧
    borrow_book stateC10 7 ("   ") 3 = (stateC10, .invalidUsername) :=
  ⟨((borrow_silently_creates_user stateC10 7 (" dan ") 3 bookC10 (by decide)
      (by decide)).1 (by decide) (by decide)).1,
   (borrow_silently_creates_user stateC10 7 ("   ") 3 bookC10 (by decide)
      (by decide)).2 (by decide)⟩

end DigitalLibrary
